import Mathlib

/-
  Verification of the LightBox LED-matrix engine against its specification.

  Shallow embedding of the relevant parts of `config.py` (class `Config`) and
  `Conductor.py` (class `LEDMatrix`).  Python numbers are modelled as ℚ (all
  arithmetic appearing in the verified claims is exact in binary floating
  point, so ℚ is faithful on the claimed inputs); Python's `int(...)`
  truncation toward zero is `pyInt`; Python dicts are association lists with
  first-match lookup; a Python function that may raise is modelled with an
  `Option` result where `none` is the raised exception.
-/

namespace LightBox

/-- An RGB triple; palette entries in `config.py` are integer triples. -/
abbrev RGB := ℤ × ℤ × ℤ

instance : DecidableEq RGB := inferInstance

instance : DecidableEq (List (String × List RGB)) := inferInstance

/-- Python `int(q)`: truncation toward zero. -/
def pyInt (q : ℚ) : ℤ := if 0 ≤ q then ⌊q⌋ else ⌈q⌉

/-- Insert-or-replace on an association list, modelling assignment to one key
of a Python dict (replaces the value of an existing key, otherwise appends). -/
def dictInsert {α : Type} (l : List (String × α)) (k : String) (v : α) :
    List (String × α) :=
  if (l.lookup k).isSome then
    l.map (fun p => if p.1 = k then (k, v) else p)
  else
    l ++ [(k, v)]

/-- Python `base.update(upd)` on dicts, modelled on association lists. -/
def dictUpdate {α : Type} (base upd : List (String × α)) : List (String × α) :=
  upd.foldl (fun acc p => dictInsert acc p.1 p.2) base

/-- A preset entry as stored in `Config.presets`: a dict that may or may not
carry each of the ten keys written by `create_preset` (values read back with
`preset.get(key, default)`). -/
structure Preset where
  brightness : Option ℚ := none
  gamma : Option ℚ := none
  fps : Option ℚ := none
  current_program : Option String := none
  hue_offset : Option ℚ := none
  saturation : Option ℚ := none
  current_palette : Option String := none
  speed : Option ℚ := none
  scale : Option ℚ := none
  blend_mode : Option String := none
deriving DecidableEq

/-- The mutable configuration record of `config.py` (class `Config`), with the
fields the verified claims touch.  `_last_modified` / `_update_counter` are
named without the underscore prefix. -/
structure Config where
  matrix_width : ℕ
  matrix_height : ℕ
  serpentine_wiring : Bool
  brightness : ℚ
  gamma : ℚ
  fps : ℚ
  current_program : String
  hue_offset : ℚ
  saturation : ℚ
  current_palette : String
  speed : ℚ
  scale : ℚ
  blend_mode : String
  web_port : ℕ
  color_order : String
  last_modified : ℚ
  update_counter : ℕ
  palettes : List (String × List RGB)
  presets : List (String × Preset)
deriving DecidableEq

/-- The built-in palette table installed by `Config.__init__`. -/
def defaultPalettes : List (String × List RGB) :=
  [("rainbow",
    [(255, 0, 0), (255, 127, 0), (255, 255, 0), (0, 255, 0), (0, 0, 255),
     (75, 0, 130), (148, 0, 211)]),
   ("fire",
    [(255, 0, 0), (255, 69, 0), (255, 140, 0), (255, 215, 0), (255, 255, 0)]),
   ("ocean",
    [(0, 0, 139), (0, 0, 255), (0, 191, 255), (0, 255, 255), (127, 255, 212)]),
   ("forest",
    [(0, 100, 0), (0, 128, 0), (50, 205, 50), (144, 238, 144), (255, 255, 0)]),
   ("sunset",
    [(25, 25, 112), (138, 43, 226), (255, 0, 255), (255, 69, 0), (255, 140, 0)]),
   ("greyscale",
    [(0, 0, 0), (64, 64, 64), (128, 128, 128), (192, 192, 192), (255, 255, 255)])]

/-- The default field values set by `Config.__init__` (0.5 = 1/2, 2.2 = 11/5). -/
def defaultConfig : Config :=
  { matrix_width := 10
    matrix_height := 10
    serpentine_wiring := true
    brightness := 1 / 2
    gamma := 11 / 5
    fps := 15
    current_program := "aurora"
    hue_offset := 0
    saturation := 1
    current_palette := "rainbow"
    speed := 1
    scale := 1
    blend_mode := "normal"
    web_port := 5001
    color_order := "GRB"
    last_modified := 0
    update_counter := 0
    palettes := defaultPalettes
    presets := [] }

/-- `Config.xy_to_index`: serpentine wiring reverses odd rows, progressive
wiring is row-major. -/
def Config.xy_to_index (c : Config) (x y : ℕ) : ℕ :=
  if c.serpentine_wiring then
    if y % 2 = 0 then
      y * c.matrix_width + x
    else
      y * c.matrix_width + (c.matrix_width - 1 - x)
  else
    y * c.matrix_width + x

/-- `Config.index_to_xy`: `y = index // width`, `x = index % width`, with `x`
reversed on odd rows under serpentine wiring. -/
def Config.index_to_xy (c : Config) (index : ℕ) : ℕ × ℕ :=
  if c.serpentine_wiring ∧ (index / c.matrix_width) % 2 = 1 then
    (c.matrix_width - 1 - index % c.matrix_width, index / c.matrix_width)
  else
    (index % c.matrix_width, index / c.matrix_width)

/-- `Config.get_palette_color`.  `self.palettes.get(self.current_palette,
self.palettes["rainbow"])` evaluates its default argument eagerly, so a
missing "rainbow" key raises `KeyError`; that exception is the `none` result.
`frac` is computed from the unclamped index, exactly as in the source. -/
def Config.get_palette_color (c : Config) (position : ℚ) : Option RGB :=
  match c.palettes.lookup "rainbow" with
  | none => none
  | some rainbowFallback =>
    let palette := (c.palettes.lookup c.current_palette).getD rainbowFallback
    if palette.length = 0 then
      some (255, 255, 255)
    else if palette.length = 1 then
      some (palette.getD 0 (0, 0, 0))
    else
      let scaled_pos : ℚ := position * ((palette.length : ℚ) - 1)
      let index : ℤ := pyInt scaled_pos
      let frac : ℚ := scaled_pos - (index : ℚ)
      let clamped : ℤ := max 0 (min index ((palette.length : ℤ) - 2))
      let color1 := palette.getD clamped.toNat (0, 0, 0)
      let color2 := palette.getD (clamped.toNat + 1) (0, 0, 0)
      some (pyInt ((color1.1 : ℚ) + ((color2.1 : ℚ) - (color1.1 : ℚ)) * frac),
            pyInt ((color1.2.1 : ℚ) + ((color2.2.1 : ℚ) - (color1.2.1 : ℚ)) * frac),
            pyInt ((color1.2.2 : ℚ) + ((color2.2.2 : ℚ) - (color1.2.2 : ℚ)) * frac))

/-- `Config.mark_updated`: stamp the current time and increment the counter. -/
def Config.mark_updated (c : Config) (now : ℚ) : Config :=
  { c with last_modified := now, update_counter := c.update_counter + 1 }

/-- `Config.has_updates`: true when either the timestamp or the counter moved
past the caller's checkpoint. -/
def Config.has_updates (c : Config) (last_check_time : ℚ) (last_counter : ℕ) :
    Bool :=
  decide (c.last_modified > last_check_time) ||
    decide (c.update_counter > last_counter)

/-- `Config.load_preset`: on a known name, copy the ten preset fields onto the
live config (each defaulting to the current value when absent) and return
True; on an unknown name return False.  The returned pair is (result,
post-state). -/
def Config.load_preset (c : Config) (name : String) : Bool × Config :=
  match c.presets.lookup name with
  | some preset =>
    (true,
      { c with
        brightness := preset.brightness.getD c.brightness
        gamma := preset.gamma.getD c.gamma
        fps := preset.fps.getD c.fps
        current_program := preset.current_program.getD c.current_program
        hue_offset := preset.hue_offset.getD c.hue_offset
        saturation := preset.saturation.getD c.saturation
        current_palette := preset.current_palette.getD c.current_palette
        speed := preset.speed.getD c.speed
        scale := preset.scale.getD c.scale
        blend_mode := preset.blend_mode.getD c.blend_mode })
  | none => (false, c)

/-- A JSON value expected to be a dict: either actually a dict (already decoded
to the expected shape) or some other JSON type, whose Python type name is the
tag. -/
inductive JsonDict (α : Type) where
  | dict (d : α)
  | nonDict (tag : String)
deriving DecidableEq

/-- The decoded contents of `settings.json` as read by `Config.load_settings`:
every key is optional (`data.get(key, current)`), and the palette / preset
tables may decode to a non-dict JSON value. -/
structure SettingsData where
  matrix_width : Option ℕ := none
  matrix_height : Option ℕ := none
  serpentine_wiring : Option Bool := none
  brightness : Option ℚ := none
  gamma : Option ℚ := none
  fps : Option ℚ := none
  current_program : Option String := none
  hue_offset : Option ℚ := none
  saturation : Option ℚ := none
  current_palette : Option String := none
  speed : Option ℚ := none
  scale : Option ℚ := none
  blend_mode : Option String := none
  web_port : Option ℕ := none
  color_order : Option String := none
  palettes : Option (JsonDict (List (String × List RGB))) := none
  presets : Option (JsonDict (List (String × Preset))) := none
deriving DecidableEq

/-- The `if 'palettes' in data` block of `load_settings`: a dict value is
merged into the current table with `dict.update`; a non-dict value is only
logged, leaving the current table as it was; an absent key changes nothing. -/
def applyPalettesData (current : List (String × List RGB))
    (j : Option (JsonDict (List (String × List RGB)))) :
    List (String × List RGB) :=
  match j with
  | some (.dict d) => dictUpdate current d
  | some (.nonDict _) => current
  | none => current

/-- The `presets_data = data.get('presets', {})` block of `load_settings`: a
dict value replaces the table wholesale; a non-dict value is logged and the
table is set to empty; an absent key defaults to `{}`, also replacing the
table with empty. -/
def applyPresetsData (j : Option (JsonDict (List (String × Preset)))) :
    List (String × Preset) :=
  match j with
  | some (.dict d) => d
  | some (.nonDict _) => []
  | none => []

/-- `Config.load_settings`, the body executed when `settings.json` exists and
parses: every scalar field is `data.get(key, current)`, then the palette and
preset tables are validated as above.  The Lean function is total: this branch
of the source raises no exception (and the whole body is additionally wrapped
in try/except). -/
def Config.load_settings (c : Config) (data : SettingsData) : Config :=
  { c with
    matrix_width := data.matrix_width.getD c.matrix_width
    matrix_height := data.matrix_height.getD c.matrix_height
    serpentine_wiring := data.serpentine_wiring.getD c.serpentine_wiring
    brightness := data.brightness.getD c.brightness
    gamma := data.gamma.getD c.gamma
    fps := data.fps.getD c.fps
    current_program := data.current_program.getD c.current_program
    hue_offset := data.hue_offset.getD c.hue_offset
    saturation := data.saturation.getD c.saturation
    current_palette := data.current_palette.getD c.current_palette
    speed := data.speed.getD c.speed
    scale := data.scale.getD c.scale
    blend_mode := data.blend_mode.getD c.blend_mode
    web_port := data.web_port.getD c.web_port
    color_order := data.color_order.getD c.color_order
    palettes := applyPalettesData c.palettes data.palettes
    presets := applyPresetsData data.presets }

/-
  Conductor.py, class LEDMatrix: the post-render clamp pass, the animation
  loop, and the program loader.
-/

/-- A Python value found in a simulation-mode pixel buffer entry: a number
(int or float) or anything else. -/
inductive PyVal where
  | num (q : ℚ)
  | other (tag : String)
deriving DecidableEq

/-- One entry of the simulation-mode pixel buffer as an animation may have
left it: a tuple/list of arbitrary values, or a value of any other type. -/
inductive PixEntry where
  | seq (vs : List PyVal)
  | nonSeq (tag : String)
deriving DecidableEq

/-- The validity test of `clamp_pixels`: `isinstance(pix, (tuple, list)) and
len(pix) == 3 and all components numeric`, returning the three numbers. -/
def entryTriple : PixEntry → Option (ℚ × ℚ × ℚ)
  | .seq [.num a, .num b, .num c] => some (a, b, c)
  | _ => none

/-- `int(max(0, min(255, v)))` applied to one pixel component. -/
def clampComponent (v : ℚ) : ℤ := pyInt (max 0 (min 255 v))

/-- The per-entry action of `clamp_pixels`: valid entries have each component
clamped to a byte, malformed entries are reset to black. -/
def clampEntry (e : PixEntry) : RGB :=
  match entryTriple e with
  | some (a, b, c) => (clampComponent a, clampComponent b, clampComponent c)
  | none => (0, 0, 0)

/-- `LEDMatrix.clamp_pixels` on a list-based (simulation-mode) buffer: every
slot is rewritten in place by `clampEntry`. -/
def clamp_pixels (pixels : List PixEntry) : List RGB := pixels.map clampEntry

/-- An animation program handle: `animate(pixels, config, frame)` either
returns the updated buffer or raises (`none`). -/
structure Program where
  name : String
  animate : List RGB → Config → ℕ → Option (List RGB)

/-- The `LEDMatrix` state read and written by one iteration of `start`. -/
structure EngineState where
  config : Config
  current_program : Option Program
  pixels : List RGB
  frame_count : ℕ
  running : Bool

/-- Black-fill of the simulation buffer (`self.pixels[i] = (0, 0, 0)` for
every index). -/
def fillBlack (px : List RGB) : List RGB := List.replicate px.length (0, 0, 0)

/-- One iteration of the `while self.running` loop of `LEDMatrix.start` in
simulation mode.  `candidates` are the `*.py` stems found under `scripts/`
(empty when the directory is missing) and `load` gives the program that
`load_program(name)` would leave active.  On a render exception the handler
tries the first candidate other than the failing program's name (the
`break` fires on the first attempt because `load_program` itself never
raises); if there is none, the `for`-`else` clears the active program.  With
no active program the buffer is black-filled.  `frame_count` increments every
iteration; `running` is never written by the loop body. -/
def tick (candidates : List String) (load : String → Option Program)
    (st : EngineState) : EngineState :=
  match st.current_program with
  | some p =>
    match p.animate st.pixels st.config st.frame_count with
    | some px => { st with pixels := px, frame_count := st.frame_count + 1 }
    | none =>
      match (candidates.filter (fun c => c ≠ p.name)).head? with
      | some fb =>
        { st with current_program := load fb, frame_count := st.frame_count + 1 }
      | none =>
        { st with current_program := none, frame_count := st.frame_count + 1 }
  | none =>
    { st with pixels := fillBlack st.pixels, frame_count := st.frame_count + 1 }

/-- `LEDMatrix.load_program`, fuel-indexed because the source recursion need
not terminate.  `resolves name` is `Path("scripts/name.py").exists()`;
`loads name` says whether executing that file succeeds; `candidates` lists
the `*.py` stems of `scripts/` (empty when the directory is missing).  The
result is `some r` when the call completes leaving `current_program = r`, and
`none` when the given recursion fuel is exhausted.  When the name resolves
but its load raises, the handler recurses into the first candidate different
from the failing name (`return self.load_program(fallback)`; later candidates
are reached only if that call raises, which it cannot since its own body is
fully wrapped in try/except).  When the name does not resolve, the code
recurses into `available_programs[0]` without any exclusion. -/
def load_program_fuel (resolves loads : String → Bool)
    (candidates : List String) : ℕ → String → Option (Option String)
  | 0, _ => none
  | fuel + 1, name =>
    if resolves name then
      if loads name then
        some (some name)
      else
        match (candidates.filter (fun c => c ≠ name)).head? with
        | some fb => load_program_fuel resolves loads candidates fuel fb
        | none => some none
    else
      match candidates.head? with
      | some fb => load_program_fuel resolves loads candidates fuel fb
      | none => some none

/-
  Theorems.
-/

/-- Row-major placement: dividing `y * w + x` by `w` recovers `y`, and its
remainder recovers `x`, whenever `x < w`. -/
theorem rowmajor_div_mod (w y x : ℕ) (hw : 0 < w) (hx : x < w) :
    (y * w + x) / w = y ∧ (y * w + x) % w = x := by
  constructor
  · rw [mul_comm, Nat.mul_add_div hw, Nat.div_eq_of_lt hx, Nat.add_zero]
  · rw [mul_comm, Nat.mul_add_mod, Nat.mod_eq_of_lt hx]

/-- C1: for every geometry with positive width and height and either wiring
mode, `xy_to_index` applied to `index_to_xy i` returns `i` for every valid
index, and `index_to_xy` applied to `xy_to_index x y` returns `(x, y)` for
every in-bounds coordinate pair. -/
theorem xy_index_roundtrip (c : Config) (hw : 0 < c.matrix_width)
    (hh : 0 < c.matrix_height) :
    (∀ i : ℕ, i < c.matrix_width * c.matrix_height →
      c.xy_to_index (c.index_to_xy i).1 (c.index_to_xy i).2 = i) ∧
    (∀ x y : ℕ, x < c.matrix_width → y < c.matrix_height →
      c.index_to_xy (c.xy_to_index x y) = (x, y)) := by
  constructor
  · intro i _
    have h1 := Nat.div_add_mod i c.matrix_width
    have h2 : i % c.matrix_width < c.matrix_width := Nat.mod_lt i hw
    have hc : c.matrix_width * (i / c.matrix_width) =
        i / c.matrix_width * c.matrix_width := Nat.mul_comm _ _
    cases hs : c.serpentine_wiring with
    | false =>
      simp [Config.index_to_xy, Config.xy_to_index, hs]
      omega
    | true =>
      by_cases hp : (i / c.matrix_width) % 2 = 1
      · have e1 : c.matrix_width - 1 - (c.matrix_width - 1 - i % c.matrix_width) =
            i % c.matrix_width := by
          generalize i % c.matrix_width = r at h2 ⊢
          omega
        simp [Config.index_to_xy, Config.xy_to_index, hs, hp, e1]
        omega
      · have hp0 : (i / c.matrix_width) % 2 = 0 := by omega
        simp [Config.index_to_xy, Config.xy_to_index, hs, hp, hp0]
        omega
  · intro x y hx hy
    cases hs : c.serpentine_wiring with
    | false =>
      obtain ⟨hdiv, hmod⟩ := rowmajor_div_mod c.matrix_width y x hw hx
      simp [Config.xy_to_index, Config.index_to_xy, hs, hdiv, hmod]
    | true =>
      by_cases hp : y % 2 = 0
      · obtain ⟨hdiv, hmod⟩ := rowmajor_div_mod c.matrix_width y x hw hx
        simp [Config.xy_to_index, Config.index_to_xy, hs, hp, hdiv, hmod]
      · have hx2 : c.matrix_width - 1 - x < c.matrix_width := by omega
        obtain ⟨hdiv, hmod⟩ :=
          rowmajor_div_mod c.matrix_width y (c.matrix_width - 1 - x) hw hx2
        have hp1 : y % 2 = 1 := by omega
        simp [Config.xy_to_index, Config.index_to_xy, hs, hp, hp1, hdiv, hmod]
        omega

/-- Witness for C1 at the default 10x10 serpentine geometry. -/
theorem xy_index_roundtrip_witness :
    0 < defaultConfig.matrix_width ∧ 0 < defaultConfig.matrix_height ∧
    defaultConfig.xy_to_index (defaultConfig.index_to_xy 19).1
      (defaultConfig.index_to_xy 19).2 = 19 ∧
    defaultConfig.index_to_xy (defaultConfig.xy_to_index 3 7) = (3, 7) :=
  ⟨by decide, by decide,
   (xy_index_roundtrip defaultConfig (by decide) (by decide)).1 19 (by decide),
   (xy_index_roundtrip defaultConfig (by decide) (by decide)).2 3 7
     (by decide) (by decide)⟩

/-- C3: for in-bounds coordinates, serpentine wiring maps even rows to
`y*width + x` and odd rows to `y*width + (width-1-x)`, progressive wiring is
always `y*width + x`; on the default 10x10 serpentine matrix
`xy_to_index 0 1 = 19` and `xy_to_index 5 0 = 5`. -/
theorem xy_to_index_formula (c : Config) (x y : ℕ) (hx : x < c.matrix_width)
    (hy : y < c.matrix_height) :
    (c.serpentine_wiring = true →
      c.xy_to_index x y =
        if y % 2 = 0 then y * c.matrix_width + x
        else y * c.matrix_width + (c.matrix_width - 1 - x)) ∧
    (c.serpentine_wiring = false →
      c.xy_to_index x y = y * c.matrix_width + x) ∧
    defaultConfig.xy_to_index 0 1 = 19 ∧
    defaultConfig.xy_to_index 5 0 = 5 := by
  refine ⟨fun hs => ?_, fun hs => ?_, by decide, by decide⟩ <;>
    simp [Config.xy_to_index, hs]

/-- Witness for C3 at the default geometry and the spec's concrete inputs. -/
theorem xy_to_index_formula_witness :
    defaultConfig.xy_to_index 0 1 = 19 ∧ defaultConfig.xy_to_index 5 0 = 5 :=
  ⟨(xy_to_index_formula defaultConfig 0 1 (by decide) (by decide)).2.2.1,
   (xy_to_index_formula defaultConfig 5 0 (by decide) (by decide)).2.2.2⟩

/-- C2 failing input: on the default rainbow palette (7 entries),
`get_palette_color 0` does return the first entry, but `get_palette_color 1`
returns (75,0,130) — the second-to-last entry — while the last entry is
(148,0,211): `frac` is computed from the unclamped index (6), so after the
index is clamped to 5 the interpolation fraction is 0. -/
theorem get_palette_color_endpoints_failing :
    defaultConfig.get_palette_color 0 = some (255, 0, 0) ∧
    defaultConfig.get_palette_color 1 = some (75, 0, 130) ∧
    ((defaultConfig.palettes.lookup "rainbow").getD []).getLast? =
      some (148, 0, 211) ∧
    ((75, 0, 130) : RGB) ≠ (148, 0, 211) := by
  refine ⟨?_, ?_, by decide, by decide⟩
  · norm_num [Config.get_palette_color, defaultConfig, defaultPalettes, pyInt,
      List.lookup, min_def, max_def]
  · norm_num [Config.get_palette_color, defaultConfig, defaultPalettes, pyInt,
      List.lookup, min_def, max_def]
    decide

/-- C4: `has_updates` is exactly the disjunction of the two strict
comparisons; it is false on a fresh checkpoint (any check time at or after
`last_modified`, paired with the current counter) with no intervening
mutation; `mark_updated` sets the timestamp and increments the counter by
exactly one; and after any `mark_updated` call a reader whose checkpoint
counter is at most the pre-call counter sees `has_updates` = true. -/
theorem has_updates_spec :
    (∀ (c : Config) (t : ℚ) (k : ℕ),
      c.has_updates t k = true ↔ (c.last_modified > t ∨ c.update_counter > k)) ∧
    (∀ (c : Config) (t : ℚ), c.last_modified ≤ t →
      c.has_updates t c.update_counter = false) ∧
    (∀ (c : Config) (now : ℚ),
      (c.mark_updated now).last_modified = now ∧
      (c.mark_updated now).update_counter = c.update_counter + 1) ∧
    (∀ (c : Config) (now t : ℚ) (k : ℕ), k ≤ c.update_counter →
      (c.mark_updated now).has_updates t k = true) := by
  refine ⟨fun c t k => ?_, fun c t h => ?_, fun c now => ?_,
    fun c now t k h => ?_⟩
  · simp [Config.has_updates]
  · simp [Config.has_updates]
    exact h
  · exact ⟨rfl, rfl⟩
  · simp [Config.has_updates, Config.mark_updated]
    right
    omega

/-- Witness for C4 at the default configuration. -/
theorem has_updates_spec_witness :
    defaultConfig.has_updates 5 defaultConfig.update_counter = false ∧
    (defaultConfig.mark_updated 7).has_updates 5 0 = true :=
  ⟨has_updates_spec.2.1 defaultConfig 5 (by norm_num [defaultConfig]),
   has_updates_spec.2.2.2 defaultConfig 7 5 0 (Nat.zero_le _)⟩

/-- Settings data whose `palettes` key holds a non-dict JSON value. -/
def badPalettesData : SettingsData := { palettes := some (.nonDict "str") }

/-- C5 counterexample: loading the default configuration from a settings file
whose `palettes` value is not a mapping leaves the palette table equal to the
(non-empty) built-in default table, not empty as the claim states. -/
theorem load_settings_bad_palettes_counterexample :
    (defaultConfig.load_settings badPalettesData).palettes = defaultPalettes ∧
    defaultPalettes ≠ [] :=
  ⟨rfl, by decide⟩

/-- C5 amended: loading a configuration whose persisted `palettes` value is
not a mapping completes without raising (the embedding is a total function,
as is the source branch) and leaves the palette table unchanged — the
non-mapping value is only logged; it is the preset table, not the palette
table, that is replaced by an empty mapping on type mismatch. -/
theorem load_settings_bad_palettes_keeps_table (c : Config) (d : SettingsData)
    (tag : String) (hp : d.palettes = some (.nonDict tag)) :
    (c.load_settings d).palettes = c.palettes := by
  simp [Config.load_settings, applyPalettesData, hp]

/-- Witness for the amended C5 at the default configuration. -/
theorem load_settings_bad_palettes_keeps_table_witness :
    (defaultConfig.load_settings badPalettesData).palettes =
      defaultConfig.palettes :=
  load_settings_bad_palettes_keeps_table defaultConfig badPalettesData "str" rfl

/-- C9: `load_preset` on a name absent from the preset table returns False
and leaves the whole configuration record (every field) unchanged; on a
present name it returns True. -/
theorem load_preset_spec (c : Config) (name : String) :
    (c.presets.lookup name = none → c.load_preset name = (false, c)) ∧
    ((c.presets.lookup name).isSome → (c.load_preset name).1 = true) := by
  constructor
  · intro h
    simp [Config.load_preset, h]
  · intro h
    obtain ⟨p, hp⟩ := Option.isSome_iff_exists.mp h
    simp [Config.load_preset, hp]

/-- A preset storing only a brightness value. -/
def demoPreset : Preset := { brightness := some (3 / 4) }

/-- A configuration whose preset table has exactly one entry, "p1". -/
def demoPresetConfig : Config :=
  { defaultConfig with presets := [("p1", demoPreset)] }

/-- Witness for C9: an unknown preset name fails and changes nothing, a known
one succeeds. -/
theorem load_preset_spec_witness :
    demoPresetConfig.load_preset "nope" = (false, demoPresetConfig) ∧
    (demoPresetConfig.load_preset "p1").1 = true :=
  ⟨(load_preset_spec demoPresetConfig "nope").1 (by simp [demoPresetConfig, List.lookup]),
   (load_preset_spec demoPresetConfig "p1").2 (by simp [demoPresetConfig, List.lookup])⟩

/-- C10: when the current palette name is not a key of the palette table but
"rainbow" is, `get_palette_color` returns at every position exactly what it
would return with `current_palette = "rainbow"`. -/
theorem get_palette_color_unknown_fallback (c : Config) (rb : List RGB)
    (h1 : c.palettes.lookup c.current_palette = none)
    (h2 : c.palettes.lookup "rainbow" = some rb) :
    ∀ position : ℚ,
      c.get_palette_color position =
        { c with current_palette := "rainbow" }.get_palette_color position := by
  intro position
  simp [Config.get_palette_color, h1, h2]

/-- A configuration selecting a palette name absent from the table. -/
def demoUnknownPaletteConfig : Config :=
  { defaultConfig with current_palette := "nope" }

/-- Witness for C10 at position 1/2. -/
theorem get_palette_color_unknown_fallback_witness :
    demoUnknownPaletteConfig.get_palette_color (1 / 2) =
      { demoUnknownPaletteConfig with
          current_palette := "rainbow" }.get_palette_color (1 / 2) :=
  get_palette_color_unknown_fallback demoUnknownPaletteConfig
    [(255, 0, 0), (255, 127, 0), (255, 255, 0), (0, 255, 0), (0, 0, 255),
     (75, 0, 130), (148, 0, 211)]
    (by simp [demoUnknownPaletteConfig, defaultConfig, defaultPalettes, List.lookup])
    (by simp [demoUnknownPaletteConfig, defaultConfig, defaultPalettes, List.lookup])
    (1 / 2)

/-- A clamped component is a byte: `int(max(0, min(255, v)))` lies in
[0, 255] for every rational `v`. -/
theorem clampComponent_mem (v : ℚ) :
    0 ≤ clampComponent v ∧ clampComponent v ≤ 255 := by
  have h0 : (0 : ℚ) ≤ max 0 (min 255 v) := le_max_left 0 _
  have h255 : max 0 (min 255 v) ≤ 255 :=
    max_le (by norm_num) (min_le_left _ _)
  rw [clampComponent, pyInt, if_pos h0]
  constructor
  · exact Int.floor_nonneg.mpr h0
  · have hq : ((⌊max 0 (min 255 v)⌋ : ℚ)) ≤ 255 :=
      le_trans (Int.floor_le _) h255
    exact_mod_cast hq

/-- C6: after `clamp_pixels` every buffer slot is an integer triple with each
component in [0, 255] (and the buffer keeps its length); any entry that is
not a 3-element tuple/list of numbers becomes (0,0,0); a valid entry has each
component clamped, a component at or below 0 becoming 0 and one at or above
255 becoming 255. -/
theorem clamp_pixels_spec (buf : List PixEntry) :
    (clamp_pixels buf).length = buf.length ∧
    (∀ p ∈ clamp_pixels buf,
      0 ≤ p.1 ∧ p.1 ≤ 255 ∧ 0 ≤ p.2.1 ∧ p.2.1 ≤ 255 ∧
        0 ≤ p.2.2 ∧ p.2.2 ≤ 255) ∧
    (∀ e : PixEntry, entryTriple e = none → clampEntry e = (0, 0, 0)) ∧
    (∀ (e : PixEntry) (a b c : ℚ), entryTriple e = some (a, b, c) →
      clampEntry e = (clampComponent a, clampComponent b, clampComponent c)) ∧
    (∀ v : ℚ, v ≤ 0 → clampComponent v = 0) ∧
    (∀ v : ℚ, 255 ≤ v → clampComponent v = 255) := by
  refine ⟨List.length_map _ _, ?_, ?_, ?_, ?_, ?_⟩
  · intro p hp
    obtain ⟨e, _, rfl⟩ := List.mem_map.mp hp
    cases h : entryTriple e with
    | none =>
      simp [clampEntry, h]
    | some t =>
      obtain ⟨a, b, cc⟩ := t
      have ha := clampComponent_mem a
      have hb := clampComponent_mem b
      have hc := clampComponent_mem cc
      simp [clampEntry, h]
      exact ⟨ha.1, ha.2, hb.1, hb.2, hc.1, hc.2⟩
  · intro e h
    simp [clampEntry, h]
  · intro e a b cc h
    simp [clampEntry, h]
  · intro v hv
    have h1 : min (255 : ℚ) v = v := min_eq_right (le_trans hv (by norm_num))
    have h2 : max (0 : ℚ) v = 0 := max_eq_left hv
    rw [clampComponent, h1, h2, pyInt, if_pos le_rfl, Int.floor_zero]
  · intro v hv
    have h1 : min (255 : ℚ) v = 255 := min_eq_left hv
    rw [clampComponent, h1]
    norm_num [pyInt]

/-- A buffer holding one out-of-range entry, one wrong-typed entry, one
wrong-arity entry and one fractional in-range entry. -/
def demoBuffer : List PixEntry :=
  [.seq [.num 300, .num (-5), .num 128], .nonSeq "int",
   .seq [.num 1, .num 2], .seq [.num 0, .num 255, .num (7 / 2)]]

/-- Witness for C6 on a concrete malformed buffer. -/
theorem clamp_pixels_spec_witness :
    (clamp_pixels demoBuffer).length = demoBuffer.length ∧
    clampEntry (.nonSeq "int") = (0, 0, 0) ∧
    clampEntry (.seq [.num 1, .num 2]) = (0, 0, 0) ∧
    clampComponent 300 = 255 ∧
    clampComponent (-5) = 0 :=
  ⟨(clamp_pixels_spec demoBuffer).1,
   (clamp_pixels_spec demoBuffer).2.2.1 (.nonSeq "int") rfl,
   (clamp_pixels_spec demoBuffer).2.2.1 (.seq [.num 1, .num 2]) rfl,
   (clamp_pixels_spec demoBuffer).2.2.2.2.2 300 (by norm_num),
   (clamp_pixels_spec demoBuffer).2.2.2.2.1 (-5) (by norm_num)⟩

/-- A tick with no active program only black-fills the buffer and counts the
frame. -/
theorem tick_no_program (cs : List String) (ld : String → Option Program)
    (s : EngineState) (h : s.current_program = none) :
    tick cs ld s =
      { s with pixels := fillBlack s.pixels,
               frame_count := s.frame_count + 1 } := by
  simp [tick, h]

/-- Iterating the loop from a program-less state keeps the program cleared,
never touches `running`, preserves the buffer length, and from the first
iteration on leaves the buffer all black. -/
theorem tick_none_iter (cs : List String) (ld : String → Option Program)
    (s : EngineState) (h : s.current_program = none) :
    ∀ m : ℕ,
      ((tick cs ld)^[m] s).current_program = none ∧
      ((tick cs ld)^[m] s).running = s.running ∧
      ((tick cs ld)^[m] s).pixels.length = s.pixels.length ∧
      (1 ≤ m → ((tick cs ld)^[m] s).pixels =
        List.replicate s.pixels.length (0, 0, 0)) := by
  intro m
  induction m with
  | zero => exact ⟨h, rfl, rfl, by omega⟩
  | succ n ih =>
    obtain ⟨ih1, ih2, ih3, _⟩ := ih
    rw [Function.iterate_succ_apply', tick_no_program cs ld _ ih1]
    refine ⟨ih1, ih2, ?_, fun _ => ?_⟩
    · simp [fillBlack, ih3]
    · simp [fillBlack, ih3]

/-- C7: if the active program raises on every render call and no other
candidate is available, then after one tick the engine's active program is
cleared while the loop flag is untouched, and on every later tick the buffer
is filled with black, the program stays cleared, and the loop flag stays
true. -/
theorem engine_clears_program_and_blanks (cs : List String)
    (ld : String → Option Program) (st : EngineState) (p : Program)
    (hrun : st.running = true)
    (hp : st.current_program = some p)
    (hr : ∀ px cfg f, p.animate px cfg f = none)
    (hc : cs.filter (fun q => q ≠ p.name) = []) :
    (tick cs ld st).current_program = none ∧
    (tick cs ld st).running = true ∧
    (∀ k : ℕ, 2 ≤ k →
      ((tick cs ld)^[k] st).pixels =
        List.replicate st.pixels.length (0, 0, 0) ∧
      ((tick cs ld)^[k] st).current_program = none ∧
      ((tick cs ld)^[k] st).running = true) := by
  have h1 : tick cs ld st =
      { st with current_program := none,
                frame_count := st.frame_count + 1 } := by
    simp only [tick, hp, hr, hc, List.head?_nil]
  refine ⟨by rw [h1], by rw [h1]; exact hrun, ?_⟩
  intro k hk
  obtain ⟨m, rfl⟩ : ∃ m, k = m + 1 := ⟨k - 1, by omega⟩
  rw [Function.iterate_succ_apply, h1]
  obtain ⟨g1, g2, _, g4⟩ :=
    tick_none_iter cs ld
      { st with current_program := none, frame_count := st.frame_count + 1 }
      rfl m
  have hm : 1 ≤ m := by omega
  exact ⟨g4 hm, g1, by rw [g2]; exact hrun⟩

/-- A program whose render call raises on every invocation. -/
def alwaysRaises : Program :=
  { name := "bad", animate := fun _ _ _ => none }

/-- The engine state at loop entry with `alwaysRaises` active and one pixel. -/
def demoEngineState : EngineState :=
  { config := defaultConfig
    current_program := some alwaysRaises
    pixels := [(1, 2, 3)]
    frame_count := 0
    running := true }

/-- Witness for C7 with an empty candidate directory. -/
theorem engine_clears_program_and_blanks_witness :
    (tick [] (fun _ => none) demoEngineState).current_program = none ∧
    (tick [] (fun _ => none) demoEngineState).running = true ∧
    (∀ k : ℕ, 2 ≤ k →
      ((tick [] (fun _ => none))^[k] demoEngineState).pixels =
        List.replicate demoEngineState.pixels.length (0, 0, 0) ∧
      ((tick [] (fun _ => none))^[k] demoEngineState).current_program = none ∧
      ((tick [] (fun _ => none))^[k] demoEngineState).running = true) :=
  engine_clears_program_and_blanks [] (fun _ => none) demoEngineState
    alwaysRaises rfl rfl (fun _ _ _ => rfl) rfl

/-- The resolution predicate of the C8 failing scenario: exactly the files
`a.py` and `b.py` exist under `scripts/`. -/
def abResolves : String → Bool := fun n => n == "a" || n == "b"

/-- The load predicate of the C8 failing scenario: executing any candidate
raises. -/
def abLoads : String → Bool := fun _ => false

/-- C8 failing input: with candidates a and b that both resolve and both
raise during load, a resolution pass started at "a" never completes, for any
recursion depth: the handler for "a" recurses into "b" (the only name
different from "a") and the handler for "b" recurses straight back into the
already-failed "a", so the pass re-attempts failed candidates forever instead
of terminating. -/
theorem load_program_fallback_nonterminating :
    ∀ fuel : ℕ,
      load_program_fuel abResolves abLoads ["a", "b"] fuel "a" = none ∧
      load_program_fuel abResolves abLoads ["a", "b"] fuel "b" = none := by
  intro fuel
  induction fuel with
  | zero => exact ⟨rfl, rfl⟩
  | succ n ih =>
    constructor
    · rw [load_program_fuel]
      simpa [abResolves, abLoads] using ih.2
    · rw [load_program_fuel]
      simpa [abResolves, abLoads] using ih.1

end LightBox
